import Mathlib

/-!
Verification development for the autoOffloadInput reconciliation scripts.

The JavaScript sources are embedded shallowly:

* `src/lib/services/cl_service.js` — the convergence sampler `getCLValue`;
* `src/lib/utility.js` (`src/utility.js`) — `isMatch`, `getColLetter`;
* `src/lib/rowprocessor.js` — the row reconciliation engine `processRow`;
* `src/index.js` — `buildExpectedCells`, the chunked-save block of `main`
  and the timed-out-save verification pass.

JavaScript numbers that the scripts manipulate exactly (quote values, cell
values, averages, `Math.ceil`) are modelled as rationals `ℚ`; machine
floating point is never exercised by the fragments under study, which only
add, divide by small constants, compare and take ceilings of decimally
parsed inputs.  Nullable values are `Option`; a function that can fail
returns `Option`.  Page and network effects are modelled by passing an
explicit environment (`CLPage`, `RowServices`) recording what each external
query would answer; the definitions then mirror the control flow of the
source line by line.
-/

/-! ## JavaScript string and number primitives -/

/-- JS `String.prototype.trim()`: the string without leading and trailing
whitespace.  Defined on the character list so that it is fully executable. -/
def jsTrim (s : String) : String :=
  String.mk (((s.data.dropWhile Char.isWhitespace).reverse.dropWhile Char.isWhitespace).reverse)

/-- JS `Math.ceil` on an exact rational: the least integer above.  Written
with `Rat.floor` so that it evaluates; `jsCeil_eq` identifies it with `⌈q⌉`. -/
def jsCeil (q : ℚ) : ℤ := -Rat.floor (-q)

/-- JS falsiness of the `certNumber` argument (`!certNumber` accepts `null`,
`undefined` and the empty string). -/
def certMissing : Option String → Bool
  | none => true
  | some s => s == ""

/-- The characters of `s` with everything but digits and dots removed:
JS `s.replace(/[^0-9.]/g, "")`. -/
def stripNonNumeric (s : String) : String :=
  String.mk (s.data.filter (fun c => c.isDigit || c == '.'))

/-- JS `parseFloat` restricted to strings of digits and dots — the only
inputs it receives in the scripts, which strip everything else first
(`stripNonNumeric`).  Takes the longest prefix of the form `digits[.digits]`;
`none` models `NaN` (no digit consumed). -/
def parseFloatDigits (s : String) : Option ℚ :=
  let ds := s.data
  let intPart := ds.takeWhile Char.isDigit
  let rest := ds.drop intPart.length
  let fracPart := match rest with
    | '.' :: r => r.takeWhile Char.isDigit
    | _ => []
  if intPart = [] ∧ fracPart = [] then none
  else
    let ip : ℕ := intPart.foldl (fun a c => 10 * a + (c.toNat - 48)) 0
    if fracPart = [] then some (ip : ℚ)
    else
      let fp : ℕ := fracPart.foldl (fun a c => 10 * a + (c.toNat - 48)) 0
      some ((ip : ℚ) + (fp : ℚ) / (10 : ℚ) ^ fracPart.length)

/-! ## src/lib/services/cl_service.js — the stale-convergence sampler -/

/-- Result object of `getCLValue` (cl_service.js lines 185-189): the raw
unrounded quote, the rounded-up larger of quote and comparison average, and
the scraped confidence level (0 when undetermined). -/
structure CLResult where
  raw : ℚ
  higher : ℤ
  confidence : ℕ
deriving DecidableEq, Repr

/-- Environment recording what every page query made by `getCLValue` would
answer.  Element lookups that can fail are booleans or `Option`; the polled
reads are indexed by the attempt number at which they happen. -/
structure CLPage where
  /-- `page.$(searchIconSelector)` finds an element (lines 36-41). -/
  searchIcon : Bool
  /-- `page.$(inputSelector)` finds an element (lines 46-51); a missing
  input also covers the `waitForSelector` timeout rejection, which the
  outer `try` turns into the same `null` return. -/
  inputField : Bool
  /-- `page.$(submitBtnSelector)` finds an element (lines 57-61). -/
  submitBtn : Bool
  /-- Child count of the results container at each poll of the results wait
  loop (lines 65-79); `none` when the container is absent. -/
  resultsCheck : ℕ → Option ℕ
  /-- Parsed card-ladder value element at each poll of the value wait loop
  (lines 92-99): `none` when the element is absent, its text empty, or the
  parse is `NaN`. -/
  clRead : ℕ → Option ℚ
  /-- The three comparison price slots (lines 134-140), already coerced by
  the `|| 0` of the page evaluation (a missing slot reads 0). -/
  price : Fin 3 → ℚ
  /-- `page.$(firstResultLinkSelector)` finds an element (line 154). -/
  firstResultLink : Bool
  /-- Confidence level scraped from the detail view (lines 160-170); 0 when
  the class name carries none.  A scrape error is caught and leaves the
  last assigned value, which this field already denotes. -/
  confidenceScrape : ℕ

/-- Results wait loop, cl_service.js lines 65-79: up to 20 polls, success
when the container is present with at least 3 children. -/
def waitForResults (check : ℕ → Option ℕ) : ℕ → ℕ → Bool
  | 0, _ => false
  | fuel + 1, attempt =>
    match check attempt with
    | some c => if 3 ≤ c then true else waitForResults check fuel (attempt + 1)
    | none => waitForResults check fuel (attempt + 1)

/-- `MAX_RETRIES` of cl_service.js line 1: the budget of the value wait loop. -/
def MAX_RETRIES : ℕ := 30

/-- Value wait loop, cl_service.js lines 92-124.  `acc` is the running
`cardLadderValue` (initially 0).  A positive read updates `acc`; it breaks
the loop unless it equals `previousValue`, in which case it breaks only
when `skipStaleCheck` is set and otherwise keeps polling (the stale check).
Non-positive or missing reads poll again.  Exhausted fuel returns `acc`. -/
def clValueLoop (read : ℕ → Option ℚ) (previousValue : Option ℚ) (skipStaleCheck : Bool) :
    ℕ → ℕ → ℚ → ℚ
  | 0, _, acc => acc
  | fuel + 1, attempt, acc =>
    match read attempt with
    | some v =>
      if 0 < v then
        if previousValue = some v then
          if skipStaleCheck then v
          else clValueLoop read previousValue skipStaleCheck fuel (attempt + 1) v
        else v
      else clValueLoop read previousValue skipStaleCheck fuel (attempt + 1) acc
    | none => clValueLoop read previousValue skipStaleCheck fuel (attempt + 1) acc

/-- `getCLValue(page, certNumber, previousValue, skipStaleCheck)` of
cl_service.js lines 29-194.  Returns `none` exactly where the source
returns `null`: missing cert, missing search icon, input or submit button,
results that never load.  Otherwise it runs the value wait loop, averages
the three price slots, takes the rounded-up maximum and attaches the
scraped confidence — note that a value loop that exhausts its budget
without a positive quote leaves `cardLadderValue = 0` and still reaches the
final `return` (lines 126-131 only log). -/
def getCLValue (page : CLPage) (certNumber : Option String)
    (previousValue : Option ℚ) (skipStaleCheck : Bool) : Option CLResult :=
  if certMissing certNumber then none
  else if !page.searchIcon then none
  else if !page.inputField then none
  else if !page.submitBtn then none
  else if !waitForResults page.resultsCheck 20 0 then none
  else
    let cardLadderValue := clValueLoop page.clRead previousValue skipStaleCheck MAX_RETRIES 0 0
    let average := (page.price 0 + page.price 1 + page.price 2) / 3
    let higherValue := jsCeil (max average cardLadderValue)
    some ⟨cardLadderValue, higherValue,
      if page.firstResultLink then page.confidenceScrape else 0⟩

/-- Page operations performed by one poll round of the results wait loop:
the container lookup, plus the child-count evaluation when it is present. -/
def resultsWaitOps (check : ℕ → Option ℕ) : ℕ → ℕ → ℕ
  | 0, _ => 0
  | fuel + 1, attempt =>
    match check attempt with
    | some c => 2 + (if 3 ≤ c then 0 else resultsWaitOps check fuel (attempt + 1))
    | none => 1 + resultsWaitOps check fuel (attempt + 1)

/-- Page evaluations performed by the value wait loop (one per poll). -/
def clValueLoopOps (read : ℕ → Option ℚ) (previousValue : Option ℚ) (skipStaleCheck : Bool) :
    ℕ → ℕ → ℕ
  | 0, _ => 0
  | fuel + 1, attempt =>
    match read attempt with
    | some v =>
      1 + (if 0 < v then
             if previousValue = some v then
               if skipStaleCheck then 0
               else clValueLoopOps read previousValue skipStaleCheck fuel (attempt + 1)
             else 0
           else clValueLoopOps read previousValue skipStaleCheck fuel (attempt + 1))
    | none => 1 + clValueLoopOps read previousValue skipStaleCheck fuel (attempt + 1)

/-- Number of page interactions `getCLValue` performs, following the
control flow of cl_service.js: the `if (!certNumber) return null` of line
30 precedes every page operation, so a missing cert performs none.  The
counts per step: search icon wait and lookup (2) and click (1); input wait
and lookup (2), triple-click and type (2); submit lookup (1) and click (1);
the results wait loop; the value wait loop; the prices evaluation (1); the
first-result lookup (1) and, when found, click, confidence evaluation and
back navigation (3). -/
def getCLValuePageOps (page : CLPage) (certNumber : Option String)
    (previousValue : Option ℚ) (skipStaleCheck : Bool) : ℕ :=
  if certMissing certNumber then 0
  else
    2 + (if !page.searchIcon then 0
    else 1 + 2 + (if !page.inputField then 0
    else 2 + 1 + (if !page.submitBtn then 0
    else 1 + resultsWaitOps page.resultsCheck 20 0 +
      (if !waitForResults page.resultsCheck 20 0 then 0
       else clValueLoopOps page.clRead previousValue skipStaleCheck MAX_RETRIES 0 + 1 +
         1 + (if page.firstResultLink then 3 else 0)))))

/-! ## src/lib/utility.js — string comparison and column letters -/

/-- `isMatch(str1, str2)` of utility.js lines 22-24:
`String(str1 || "").trim() === String(str2 || "").trim()`.  The arguments
are `string | null | undefined` (the JSDoc contract); `null`, `undefined`
and the empty string all coerce to the empty string before trimming. -/
def isMatch (str1 str2 : Option String) : Bool :=
  jsTrim (str1.getD "") == jsTrim (str2.getD "")

/-- `getColLetter(n)` of utility.js lines 6-14 for a non-negative index
(the scripts only call it on indices of found headers): repeatedly emits
`chr(n % 26 + 65)` and continues with `floor(n / 26) - 1` while that stays
non-negative, building the bijective base-26 column name. -/
def getColLetter (n : ℕ) : String :=
  if _h : n < 26 then String.singleton (Char.ofNat (n % 26 + 65))
  else getColLetter (n / 26 - 1) ++ String.singleton (Char.ofNat (n % 26 + 65))
termination_by n
decreasing_by
  have h2 : n / 26 < n := Nat.div_lt_self (by omega) (by omega)
  omega

/-! ## src/lib/rowprocessor.js — the row reconciliation engine -/

/-- JS emptiness test used throughout rowprocessor.js
(`!x || String(x).trim() === ""`): null, undefined or blank after trim. -/
def jsBlank : Option String → Bool
  | none => true
  | some s => jsTrim s == ""

/-- JS presence test for the current value (rowprocessor.js lines 135 and
160: `currentVal && String(currentVal).trim() !== ""`). -/
def hasVal : Option String → Bool
  | none => false
  | some s => !(jsTrim s == "")

/-- JS truthiness of a nullable string (`if (prevName)`,
rowprocessor.js line 121). -/
def truthyStr : Option String → Bool
  | none => false
  | some s => !(s == "")

/-- The identity triple carried in session memory and derived per row:
`{name, number, grade}` (rowprocessor.js lines 66-70). -/
structure Fingerprint where
  name : Option String
  number : Option String
  grade : Option String
deriving DecidableEq, Repr

/-- Successful answer of `psaService.getDetails(cert)` as consumed by
rowprocessor.js lines 77-92. -/
structure PsaData where
  name : String
  number : String
  grade : String
deriving DecidableEq, Repr

/-- Successful answer of `getCLValue` as consumed by rowprocessor.js line
145 (`const { raw, higher } = result`). -/
structure CLPair where
  raw : ℚ
  higher : ℚ
deriving DecidableEq, Repr

/-- The `rowData` argument of `processRow` (rowprocessor.js lines 31-34),
with `prevRowData` flattened: absent previous-row data is `none` fields. -/
structure RowData where
  cert : Option String
  currentVal : Option String
  currentName : Option String
  currentNumber : Option String
  currentGrade : Option String
  prevName : Option String
  prevNumber : Option String
  prevGrade : Option String
deriving Repr

/-- The `services` argument of `processRow` (line 36), as the answers the
two external calls of this row would produce: `psaService.getDetails(cert)`
and `getCLValue(page, cert, lastVal, isSameCard)` — the latter indexed by
the two arguments the engine computes. -/
structure RowServices where
  psaResult : Option PsaData
  clResult : Option ℚ → Bool → Option CLPair

/-- The `options` argument of `processRow` (rowprocessor.js lines 37-44),
with the defaults of the destructuring. -/
structure RowOptions where
  WRITE_MODE : String
  CL_VALUE_CHOICE : String := "RAW"
  SKIP_CL_CHECK : Bool := false
  lastScrapedValue : Option ℚ := none
  lastPsaDetails : Option Fingerprint := none
  rowNumber : ℕ
deriving Repr

/-- The mismatch record of rowprocessor.js lines 170-175.  `sheetVal` is
the parsed existing value; `none` models the `NaN` parse, which the strict
inequality of line 169 treats as different from anything. -/
structure Mismatch where
  row : ℕ
  cert : Option String
  sheetVal : Option ℚ
  scrapedVal : ℚ
deriving DecidableEq, Repr

/-- The instruction object `processRow` returns (rowprocessor.js lines
46-55).  These are exactly the fields the source initializes; the engine
has no sentinel, error-flag or confidence fields. -/
structure Instructions where
  writeName : Option String
  writeNumber : Option String
  writeGrade : Option String
  writeValue : Option ℚ
  rowModified : Bool
  mismatch : Option Mismatch
  updatedLastScrapedValue : Option ℚ
  updatedLastPsaDetails : Option Fingerprint
deriving DecidableEq, Repr

/-- The PSA data actually fetched and used: lines 72-75 call
`psaService.getDetails` only when some field is blank and the write mode is
`BOTH` or `PSA`; otherwise no data enters the row. -/
def psaFetched (rd : RowData) (mode : String) (psaResult : Option PsaData) : Option PsaData :=
  if (jsBlank rd.currentName || jsBlank rd.currentNumber || jsBlank rd.currentGrade)
      && (mode == "BOTH" || mode == "PSA") then psaResult
  else none

/-- `activePsaDetails` after the PSA phase (rowprocessor.js lines 66-99):
the current fields, with each blank one replaced by the fetched value when
a fetch succeeded.  Present fields are never overwritten here. -/
def workingFingerprint (rd : RowData) (mode : String) (psaResult : Option PsaData) :
    Fingerprint :=
  match psaFetched rd mode psaResult with
  | some psa =>
    { name := if jsBlank rd.currentName then some psa.name else rd.currentName
      number := if jsBlank rd.currentNumber then some psa.number else rd.currentNumber
      grade := if jsBlank rd.currentGrade then some psa.grade else rd.currentGrade }
  | none => { name := rd.currentName, number := rd.currentNumber, grade := rd.currentGrade }

/-- `isSameCard` (rowprocessor.js lines 105-129): true when the working
fingerprint matches the session memory fingerprint (check 1, guarded by
the truthiness of `lastPsaDetails`), or else — whenever check 1 did not
succeed and `prevName` is truthy — when it matches the previous row
fields (check 2). -/
def computeIsSameCard (active : Fingerprint) (lastPsaDetails : Option Fingerprint)
    (prevName prevNumber prevGrade : Option String) : Bool :=
  let check1 :=
    match lastPsaDetails with
    | some lp =>
      isMatch active.name lp.name && isMatch active.number lp.number &&
        isMatch active.grade lp.grade
    | none => false
  check1 ||
    (truthyStr prevName &&
      (isMatch active.name prevName && isMatch active.number prevNumber &&
        isMatch active.grade prevGrade))

/-- The `isSameItem` rule as the specification words it (for comparison
with `computeIsSameCard`): fingerprint equality with session memory, with
the previous-record fallback consulted only when the memory is empty. -/
def specIsSameItem (active : Fingerprint) (lastPsaDetails : Option Fingerprint)
    (prevName prevNumber prevGrade : Option String) : Bool :=
  match lastPsaDetails with
  | some lp =>
    isMatch active.name lp.name && isMatch active.number lp.number &&
      isMatch active.grade lp.grade
  | none =>
    isMatch active.name prevName && isMatch active.number prevNumber &&
      isMatch active.grade prevGrade

/-- Outcome of the CL acquisition for this row (rowprocessor.js lines
132-141): the call happens only when the write mode is `BOTH` or `CL` and
not suppressed by `SKIP_CL_CHECK` with a present value; the branches that
skip the call leave the instructions exactly as a `null` result does, so
`none` covers both. -/
def clOutcome (rd : RowData) (sv : RowServices) (op : RowOptions) : Option CLPair :=
  if (op.WRITE_MODE == "BOTH" || op.WRITE_MODE == "CL")
      && !(op.SKIP_CL_CHECK && hasVal rd.currentVal) then
    sv.clResult op.lastScrapedValue
      (computeIsSameCard (workingFingerprint rd op.WRITE_MODE sv.psaResult)
        op.lastPsaDetails rd.prevName rd.prevNumber rd.prevGrade)
  else none

/-- `processRow(rowData, services, options)` of rowprocessor.js lines
30-187.  PSA phase: fetched fields fill only blanks and mark the row
modified; line 103 then unconditionally stores the working fingerprint in
`updatedLastPsaDetails`.  CL phase: a successful acquisition first records
the raw quote in `updatedLastScrapedValue` (line 148), chooses the value
to write (`higher`, or `Math.ceil(raw)` for the default `RAW` choice), and
then either writes it (no current value, lines 162-165) or compares it
against the stripped numeric parse of the current value, reporting a
mismatch when they differ (lines 166-177).  A `null` acquisition result
changes nothing (there is no failure branch). -/
def processRow (rd : RowData) (sv : RowServices) (op : RowOptions) : Instructions :=
  let needsName := jsBlank rd.currentName
  let needsNumber := jsBlank rd.currentNumber
  let needsGrade := jsBlank rd.currentGrade
  let psa := psaFetched rd op.WRITE_MODE sv.psaResult
  let writeName := match psa with
    | some p => if needsName then some p.name else none
    | none => none
  let writeNumber := match psa with
    | some p => if needsNumber then some p.number else none
    | none => none
  let writeGrade := match psa with
    | some p => if needsGrade then some p.grade else none
    | none => none
  let psaModified := match psa with
    | some _ => needsName || needsNumber || needsGrade
    | none => false
  let active := workingFingerprint rd op.WRITE_MODE sv.psaResult
  match clOutcome rd sv op with
  | some pr =>
    let newValToWrite : ℚ :=
      if op.CL_VALUE_CHOICE == "HIGHER" then pr.higher else (jsCeil pr.raw : ℚ)
    if hasVal rd.currentVal then
      let cleanCurrent := parseFloatDigits (stripNonNumeric (rd.currentVal.getD ""))
      let mm : Option Mismatch :=
        match cleanCurrent with
        | some c =>
          if c = newValToWrite then none
          else some ⟨op.rowNumber, rd.cert, some c, newValToWrite⟩
        | none => some ⟨op.rowNumber, rd.cert, none, newValToWrite⟩
      ⟨writeName, writeNumber, writeGrade, none, psaModified, mm,
        some pr.raw, some active⟩
    else
      ⟨writeName, writeNumber, writeGrade, some newValToWrite, true, none,
        some pr.raw, some active⟩
  | none =>
    ⟨writeName, writeNumber, writeGrade, none, psaModified, none,
      op.lastScrapedValue, some active⟩

/-! ## Spec-modelled value-acquisition wrapper (API tier) -/

/-- Modelled from the spec: the possible outcomes of the one structured API
request of the value-acquisition step.  The repository passes a
`CL_API_KEY` option to the engine and its test suite calls the sampler
with a fifth api-key argument, but the code of the API tier itself is not
among the source files; section 4.2 of the specification describes it. -/
inductive ApiOutcome where
  | ok (value : CLResult)
  | badStatus
  | networkError
  | malformed
deriving DecidableEq, Repr

/-- Modelled from the spec: `acquire(id, previousRawValue, skipConvergence,
apiKey?)` of section 4.2.  With a key present one structured request is
issued; a well-formed success returns immediately, and any API failure
falls through unconditionally to the sampler with the same parameters
minus the key.  Returns the result together with the number of API
requests issued and the number of sampler invocations. -/
def acquire (page : CLPage) (api : ApiOutcome) (apiKey : Option String)
    (cert : Option String) (prev : Option ℚ) (skip : Bool) :
    Option CLResult × ℕ × ℕ :=
  match apiKey with
  | none => (getCLValue page cert prev skip, 0, 1)
  | some _ =>
    match api with
    | .ok v => (some v, 1, 0)
    | _ => (getCLValue page cert prev skip, 1, 1)

/-! ## src/index.js — expected cells, chunked saves and verification -/

/-- A JS value held by a sheet cell or recorded as an expected write:
either a string or a number.  `typeof expected === "number"` selects the
numeric comparison in the verification pass. -/
inductive JSVal where
  | str (s : String)
  | num (q : ℚ)
deriving DecidableEq, Repr

/-- One `{a1, expected}` verification entry (index.js lines 192-223). -/
structure ExpectedCell where
  a1 : String
  expected : JSVal
deriving DecidableEq, Repr

/-- The column indices found by `headers.indexOf` in index.js lines
138-143; `none` models `-1` (header not found). -/
structure SheetCols where
  nameCol : Option ℕ
  numberCol : Option ℕ
  gradeCol : Option ℕ
  valueCol : Option ℕ
  confidenceCol : Option ℕ
deriving Repr

/-- The fields of a `processRow` result that the save and verification
code of index.js reads (lines 188-227 and 419-448).  `writeConfidence`
is `none` for `undefined`. -/
structure SaveResult where
  writeName : Option String
  writeNumber : Option String
  writeGrade : Option String
  writeValue : Option ℚ
  writeConfidence : Option ℕ
  rowModified : Bool
deriving Repr

/-- `buildExpectedCells(result, rowNumber)` of index.js lines 188-227: one
entry per field the current result wrote, guarded exactly as in the
source — truthiness for the string fields, an explicit non-null test for
`writeValue` (so a written 0 still gets an entry), definedness and
positivity for `writeConfidence`, and in every case a found column. -/
def buildExpectedCells (cols : SheetCols) (result : SaveResult) (rowNumber : ℕ) :
    List ExpectedCell :=
  (match result.writeName, cols.nameCol with
   | some s, some i => if s == "" then [] else [⟨getColLetter i ++ toString rowNumber, .str s⟩]
   | _, _ => []) ++
  (match result.writeNumber, cols.numberCol with
   | some s, some i => if s == "" then [] else [⟨getColLetter i ++ toString rowNumber, .str s⟩]
   | _, _ => []) ++
  (match result.writeGrade, cols.gradeCol with
   | some s, some i => if s == "" then [] else [⟨getColLetter i ++ toString rowNumber, .str s⟩]
   | _, _ => []) ++
  (match result.writeValue, cols.valueCol with
   | some q, some i => [⟨getColLetter i ++ toString rowNumber, .num q⟩]
   | _, _ => []) ++
  (match result.writeConfidence, cols.confidenceCol with
   | some c, some i => if 0 < c then [⟨getColLetter i ++ toString rowNumber, .num (c : ℚ)⟩] else []
   | _, _ => [])

/-- The cells a row actually dirties before a save (index.js lines
419-448): the same fields with the truthiness guards of the apply-writes
block (`result.writeValue &&` there excludes 0).  This is the ghost record
of what a later batch commit intends to write. -/
def appliedCells (cols : SheetCols) (result : SaveResult) (rowNumber : ℕ) :
    List ExpectedCell :=
  (match result.writeName, cols.nameCol with
   | some s, some i => if s == "" then [] else [⟨getColLetter i ++ toString rowNumber, .str s⟩]
   | _, _ => []) ++
  (match result.writeNumber, cols.numberCol with
   | some s, some i => if s == "" then [] else [⟨getColLetter i ++ toString rowNumber, .str s⟩]
   | _, _ => []) ++
  (match result.writeGrade, cols.gradeCol with
   | some s, some i => if s == "" then [] else [⟨getColLetter i ++ toString rowNumber, .str s⟩]
   | _, _ => []) ++
  (match result.writeValue, cols.valueCol with
   | some q, some i => if q = 0 then [] else [⟨getColLetter i ++ toString rowNumber, .num q⟩]
   | _, _ => []) ++
  (match result.writeConfidence, cols.confidenceCol with
   | some c, some i => if 0 < c then [⟨getColLetter i ++ toString rowNumber, .num (c : ℚ)⟩] else []
   | _, _ => [])

/-- Outcome of one `sheet.saveUpdatedCells()` call as classified by the
catch block of index.js lines 460-487: success, a message matching the
timeout regex, or any other (hard) error. -/
inductive CommitOutcome where
  | ok
  | timeout
  | hardError
deriving DecidableEq, Repr

/-- State threaded through the per-row save block of index.js lines
450-493, plus two ghost fields for stating batch-coverage properties:
`pendingIntent` accumulates the cells dirtied since the last commit
attempt, and `lastCommitIntent` freezes that list at the most recent
commit attempt (what that batch intended to write). -/
structure SaveState where
  modifiedSinceSave : ℕ
  timedOutSaves : List (ℕ × List ExpectedCell)
  commitAttempts : ℕ
  pendingIntent : List ExpectedCell
  lastCommitIntent : List ExpectedCell
deriving DecidableEq, Repr

/-- One row through the save block of index.js lines 450-493, after its
writes were applied.  `commit` gives the outcome of each successive
`saveUpdatedCells` call.  A modified row reaching the chunk size commits:
on success the counter resets; on a timeout there is no retry — the
expected cells of the triggering row are recorded for post-run
verification (lines 464-472, pushed only when non-empty); on a hard error
the save is retried exactly once (lines 473-487).  The counter resets
after any save attempt (line 490). -/
def saveStep (chunkSize : ℕ) (commit : ℕ → CommitOutcome) (st : SaveState)
    (cols : SheetCols) (result : SaveResult) (rowNumber : ℕ) : SaveState :=
  let pending := st.pendingIntent ++ appliedCells cols result rowNumber
  if result.rowModified then
    if chunkSize ≤ st.modifiedSinceSave + 1 then
      match commit st.commitAttempts with
      | .ok =>
        ⟨0, st.timedOutSaves, st.commitAttempts + 1, [], pending⟩
      | .timeout =>
        let expectedCells := buildExpectedCells cols result rowNumber
        ⟨0,
          st.timedOutSaves ++ (if expectedCells = [] then [] else [(rowNumber, expectedCells)]),
          st.commitAttempts + 1, [], pending⟩
      | .hardError =>
        ⟨0, st.timedOutSaves, st.commitAttempts + 2, [], pending⟩
    else
      ⟨st.modifiedSinceSave + 1, st.timedOutSaves, st.commitAttempts, pending,
        st.lastCommitIntent⟩
  else
    ⟨st.modifiedSinceSave, st.timedOutSaves, st.commitAttempts, pending, st.lastCommitIntent⟩

/-- JS `Number(x)` on a cell value, with `none` for `NaN`: `null` (a
missing cell, via the `?? null` of index.js line 518) converts to 0, a
number stays itself, and a string parses as a complete optionally signed
decimal literal after trimming, the empty trimmed string giving 0.
Exponent and non-decimal forms do not arise from sheet cells here. -/
def jsNumber : Option JSVal → Option ℚ
  | none => some 0
  | some (.num q) => some q
  | some (.str s) =>
    let t := jsTrim s
    if t == "" then some 0
    else
      let (negative, ds) :=
        match t.data with
        | '-' :: r => (true, r)
        | '+' :: r => (false, r)
        | r => (false, r)
      let intPart := ds.takeWhile Char.isDigit
      let rest := ds.drop intPart.length
      let fracPart := match rest with
        | '.' :: r => r.takeWhile Char.isDigit
        | _ => []
      let consumed := intPart.length + (if rest = [] then 0 else 1 + fracPart.length)
      if (intPart = [] ∧ fracPart = []) ∨ consumed ≠ ds.length then none
      else
        let ip : ℕ := intPart.foldl (fun a c => 10 * a + (c.toNat - 48)) 0
        let fp : ℕ := fracPart.foldl (fun a c => 10 * a + (c.toNat - 48)) 0
        let magnitude : ℚ := (ip : ℚ) + (fp : ℚ) / (10 : ℚ) ^ fracPart.length
        some (if negative then -magnitude else magnitude)

/-- JS `String(x)` on a cell value as the verification pass uses it
(`String(actual ?? "")`): `null` gives the empty string, a string stays
itself, and a number renders in decimal (the numbers compared here are
the integers the scripts write; non-integers keep an exact fractional
rendering as a stand-in for the float formatting the model excludes). -/
def jsString : Option JSVal → String
  | none => ""
  | some (.str s) => s
  | some (.num q) =>
    if q.den = 1 then toString q.num
    else toString q.num ++ "/" ++ toString q.den

/-- The comparison of one verification entry (index.js lines 520-523): a
numeric expected value compares under `Number(actual) === expected`
(strict, so a `NaN` conversion never matches), anything else as trimmed
strings. -/
def cellMatches (expected : JSVal) (actual : Option JSVal) : Bool :=
  match expected with
  | .num q => jsNumber actual == some q
  | .str s => jsTrim (jsString actual) == jsTrim s

/-- The mismatched entries of one timed-out save, as collected by the loop
of index.js lines 514-528; they are only reported. -/
def verifyEntry (actualAt : String → Option JSVal) (cells : List ExpectedCell) :
    List ExpectedCell :=
  cells.filter (fun c => !cellMatches c.expected (actualAt c.a1))

/-- The whole post-run verification pass (index.js lines 505-539): every
recorded entry is re-read and compared; the output is the per-row list of
mismatches, which the source logs and then discards — nothing of the run
depends on it. -/
def verifyTimedOutSaves (actualAt : String → Option JSVal)
    (entries : List (ℕ × List ExpectedCell)) : List (ℕ × List ExpectedCell) :=
  entries.map (fun e => (e.1, verifyEntry actualAt e.2))

/-! ## Concrete fixtures -/

/-- Page whose value element shows 100 on the first three polls and 120
afterwards, realizing the sampled sequence of the convergence example;
everything else loads normally. -/
def seqPage : CLPage :=
  { searchIcon := true, inputField := true, submitBtn := true,
    resultsCheck := fun _ => some 3,
    clRead := fun t => if t < 3 then some 100 else some 120,
    price := fun _ => 0,
    firstResultLink := true, confidenceScrape := 3 }

/-- Page whose value element never loads, while results and prices do:
the value wait loop exhausts its budget without a positive quote. -/
def noQuotePage : CLPage :=
  { searchIcon := true, inputField := true, submitBtn := true,
    resultsCheck := fun _ => some 3,
    clRead := fun _ => none,
    price := fun _ => 10,
    firstResultLink := true, confidenceScrape := 2 }

/-- Row with a cert and a blank value, rowprocessor.test.js scenario of a
failed CL load on an empty cell. -/
def c3Row : RowData := ⟨some "123", some "", none, none, none, none, none, none⟩

/-- Services where both the PSA lookup and the CL acquisition fail. -/
def c3Services : RowServices := ⟨none, fun _ _ => none⟩

/-- Options of the failed-CL scenario: mode `BOTH`, row 4. -/
def c3Options : RowOptions := ⟨"BOTH", "RAW", false, none, none, 4⟩

/-- Row with an existing value of 100 and complete metadata. -/
def c4Row : RowData :=
  ⟨some "123", some "100", some "Pikachu", some "1", some "9", none, none, none⟩

/-- Services where the CL acquisition yields raw 50, higher 200. -/
def c4Services : RowServices := ⟨none, fun _ _ => some ⟨50, 200⟩⟩

/-- Options of the forced-overwrite scenario: the engine receives no
force-overwrite field at all, so the caller-side `FORCE_CL_OVERWRITE`
cannot reach it; mode `BOTH`, comparison choice, row 2. -/
def c4Options : RowOptions := ⟨"BOTH", "HIGHER", false, none, none, 2⟩

/-- Columns where only the value column exists, at index 1 (column B). -/
def c9Cols : SheetCols := ⟨none, none, none, some 1, none⟩

/-- Row result writing value 100, marked modified. -/
def c9Result1 : SaveResult := ⟨none, none, none, some 100, none, true⟩

/-- Row result writing value 200, marked modified. -/
def c9Result2 : SaveResult := ⟨none, none, none, some 200, none, true⟩

/-- Fresh save state. -/
def c9State0 : SaveState := ⟨0, [], 0, [], []⟩

/-- Commit oracle under which every save attempt times out. -/
def c9Commit : ℕ → CommitOutcome := fun _ => .timeout

/-- Two modified value-writing rows pushed through the save block with
chunk size 2 under timing-out commits: the commit triggered at row 3
covers the writes of both rows. -/
def c9Final : SaveState :=
  saveStep 2 c9Commit (saveStep 2 c9Commit c9State0 c9Cols c9Result1 2) c9Cols c9Result2 3

/-! ## Helper lemmas -/

/-- The executable ceiling agrees with the mathematical one. -/
theorem jsCeil_eq (q : ℚ) : jsCeil q = ⌈q⌉ := rfl

/-- One unfolding step of the value wait loop. -/
theorem clValueLoop_succ (read : ℕ → Option ℚ) (previousValue : Option ℚ)
    (skipStaleCheck : Bool) (fuel attempt : ℕ) (acc : ℚ) :
    clValueLoop read previousValue skipStaleCheck (fuel + 1) attempt acc =
      match read attempt with
      | some v =>
        if 0 < v then
          if previousValue = some v then
            if skipStaleCheck then v
            else clValueLoop read previousValue skipStaleCheck fuel (attempt + 1) v
          else v
        else clValueLoop read previousValue skipStaleCheck fuel (attempt + 1) acc
      | none => clValueLoop read previousValue skipStaleCheck fuel (attempt + 1) acc := rfl

/-- One unfolding step of the value wait loop operation count. -/
theorem clValueLoopOps_succ (read : ℕ → Option ℚ) (previousValue : Option ℚ)
    (skipStaleCheck : Bool) (fuel attempt : ℕ) :
    clValueLoopOps read previousValue skipStaleCheck (fuel + 1) attempt =
      match read attempt with
      | some v =>
        1 + (if 0 < v then
               if previousValue = some v then
                 if skipStaleCheck then 0
                 else clValueLoopOps read previousValue skipStaleCheck fuel (attempt + 1)
               else 0
             else clValueLoopOps read previousValue skipStaleCheck fuel (attempt + 1))
      | none => 1 + clValueLoopOps read previousValue skipStaleCheck fuel (attempt + 1) := rfl

/-- A value wait loop that never sees a positive quote returns its
accumulator unchanged. -/
theorem clValueLoop_of_no_pos (read : ℕ → Option ℚ) (previousValue : Option ℚ)
    (skipStaleCheck : Bool) (h : ∀ t v, read t = some v → ¬ 0 < v) :
    ∀ fuel attempt acc, clValueLoop read previousValue skipStaleCheck fuel attempt acc = acc := by
  intro fuel
  induction fuel with
  | zero => intro attempt acc; rfl
  | succ n ih =>
    intro attempt acc
    rw [clValueLoop_succ]
    cases hr : read attempt with
    | none => exact ih (attempt + 1) acc
    | some v =>
      simp only [if_neg (h attempt v hr)]
      exact ih (attempt + 1) acc

/-- Evaluation of `getCLValue` when every guard passes: the result is the
loop value, the rounded-up maximum against the price average, and the
scraped confidence. -/
theorem getCLValue_pass (page : CLPage) (cert : String) (prev : Option ℚ) (skip : Bool)
    (hc : ¬ cert = "") (h1 : page.searchIcon = true) (h2 : page.inputField = true)
    (h3 : page.submitBtn = true) (h4 : waitForResults page.resultsCheck 20 0 = true) :
    getCLValue page (some cert) prev skip =
      some ⟨clValueLoop page.clRead prev skip MAX_RETRIES 0 0,
        jsCeil (max ((page.price 0 + page.price 1 + page.price 2) / 3)
          (clValueLoop page.clRead prev skip MAX_RETRIES 0 0)),
        if page.firstResultLink then page.confidenceScrape else 0⟩ := by
  have hcm : certMissing (some cert) = false := by
    simp [certMissing, hc]
  simp [getCLValue, hcm, h1, h2, h3, h4]

/-- Column letter of index 1. -/
theorem getColLetter_one : getColLetter 1 = "B" := by
  rw [getColLetter]
  decide

/-! ## Claim theorems -/

/-- C1: with a non-null `previousRawValue` the sampler, on the sequence
100, 100, 100, 120 with previous value 100, waits past the repeats and
returns raw 120 when `skipStaleCheck` is off, but accepts the first sample
and returns raw 100 when it is on; and any positive quote differing from
the previous value — in particular any positive quote when no previous
value exists — is accepted the moment it is read, with no further poll. -/
theorem getCLValue_convergence_c1 :
    ((getCLValue seqPage (some "123") (some 100) false).map CLResult.raw = some 120)
  ∧ ((getCLValue seqPage (some "123") (some 100) true).map CLResult.raw = some 100)
  ∧ (∀ (read : ℕ → Option ℚ) (prev : Option ℚ) (skip : Bool) (v : ℚ)
       (fuel attempt : ℕ) (acc : ℚ),
       read attempt = some v → 0 < v → prev ≠ some v →
         clValueLoop read prev skip (fuel + 1) attempt acc = v ∧
         clValueLoopOps read prev skip (fuel + 1) attempt = 1) := by
  refine ⟨by decide, by decide, ?_⟩
  intro read prev skip v fuel attempt acc h0 hp hne
  constructor
  · rw [clValueLoop_succ, h0]
    simp only [if_pos hp, if_neg hne]
  · rw [clValueLoopOps_succ, h0]
    simp only [if_pos hp, if_neg hne]

/-- C10: a missing identifier — null, undefined or the empty string — makes
`getCLValue` return null at once, for every possible page, and the run
performs zero page operations. -/
theorem getCLValue_missing_cert_c10 :
    ∀ (page : CLPage) (prev : Option ℚ) (skip : Bool),
      (getCLValue page none prev skip = none
        ∧ getCLValuePageOps page none prev skip = 0)
    ∧ (getCLValue page (some "") prev skip = none
        ∧ getCLValuePageOps page (some "") prev skip = 0) := by
  intro page prev skip
  exact ⟨⟨rfl, rfl⟩, ⟨rfl, rfl⟩⟩

/-- C7: with an api key present, the acquisition wrapper issues exactly one
structured request; a well-formed success is returned as is with the
sampler never invoked, and every API failure falls through to the sampler
called with the same previous value and skip flag. -/
theorem acquire_api_tier_c7 :
    ∀ (page : CLPage) (api : ApiOutcome) (key : String) (cert : Option String)
      (prev : Option ℚ) (skip : Bool),
      ((acquire page api (some key) cert prev skip).2.1 = 1)
    ∧ (∀ v, api = .ok v → acquire page api (some key) cert prev skip = (some v, 1, 0))
    ∧ ((∀ v, api ≠ .ok v) →
        acquire page api (some key) cert prev skip = (getCLValue page cert prev skip, 1, 1)) := by
  intro page api key cert prev skip
  refine ⟨?_, ?_, ?_⟩
  · cases api <;> rfl
  · intro v hv
    subst hv
    rfl
  · intro h
    cases api with
    | ok v => exact absurd rfl (h v)
    | badStatus => rfl
    | networkError => rfl
    | malformed => rfl

/-- C2 counterexample: on a page where the value element never loads but
everything else does, the sampler exhausts its budget without a positive
quote and still returns a result object — raw 0, the rounded-up price
average as `higher` — not the null Failure the claim asserts. -/
theorem getCLValue_exhausted_cx :
    getCLValue noQuotePage (some "999") (some 50) false = some ⟨0, 10, 2⟩
  ∧ getCLValue noQuotePage (some "999") (some 50) false ≠ none := by
  have hloop : clValueLoop noQuotePage.clRead (some 50) false MAX_RETRIES 0 0 = 0 := by
    decide
  have h := getCLValue_pass noQuotePage "999" (some 50) false (by decide) rfl rfl rfl (by decide)
  rw [hloop] at h
  have havg : ((noQuotePage.price 0 + noQuotePage.price 1 + noQuotePage.price 2) / 3 : ℚ)
      = 10 := by
    show ((10 : ℚ) + 10 + 10) / 3 = 10
    norm_num
  rw [havg] at h
  have hceil : jsCeil (max (10 : ℚ) 0) = 10 := by
    rw [jsCeil_eq]
    rw [max_eq_left (by norm_num : (0 : ℚ) ≤ 10)]
    norm_num
  rw [hceil] at h
  rw [h]
  exact ⟨rfl, by simp⟩

/-- C2 amended: when `getCLValue` gets past its element and results guards
but the retry budget ends without ever observing a positive quote, the
sampler does not propagate a null Failure — it returns a result object
whose raw field is 0 (with `higher` the rounded-up maximum of the price
average and 0), and no exception escapes since every error path yields a
value.  Null is reserved for the missing-cert, missing-element,
results-timeout and thrown-error paths. -/
theorem getCLValue_exhausted_zero_raw_c2 (page : CLPage) (cert : String)
    (prev : Option ℚ) (skip : Bool)
    (hc : ¬ cert = "") (h1 : page.searchIcon = true) (h2 : page.inputField = true)
    (h3 : page.submitBtn = true) (h4 : waitForResults page.resultsCheck 20 0 = true)
    (hq : ∀ t v, page.clRead t = some v → v ≤ 0) :
    getCLValue page (some cert) prev skip ≠ none
  ∧ (getCLValue page (some cert) prev skip).map CLResult.raw = some 0 := by
  have hz := clValueLoop_of_no_pos page.clRead prev skip
    (fun t v hv => not_lt.mpr (hq t v hv)) MAX_RETRIES 0 0
  have h := getCLValue_pass page cert prev skip hc h1 h2 h3 h4
  rw [hz] at h
  rw [h]
  exact ⟨by simp, by simp⟩

/-- C2 amended, witness at the concrete no-quote page. -/
theorem getCLValue_exhausted_zero_raw_c2_witness :
    getCLValue noQuotePage (some "7") none true ≠ none
  ∧ (getCLValue noQuotePage (some "7") none true).map CLResult.raw = some 0 :=
  getCLValue_exhausted_zero_raw_c2 noQuotePage "7" none true (by decide) rfl rfl rfl
    (by decide) (fun t v hv => by simp [noQuotePage] at hv)

/-- C3: evaluating the engine at the failing input — acquisition fails,
existing value blank, mode `BOTH` — shows it writes no sentinel, raises no
flag and leaves `rowModified` false: the instruction set is untouched
except for the always-refreshed fingerprint.  The instruction record has
no sentinel or error-flag field to begin with, while the test suite of the
repository expects a "No comps" write, an error colour and a modified
row here. -/
theorem processRow_failure_no_sentinel_c3 :
    processRow c3Row c3Services c3Options =
      ⟨none, none, none, none, false, none, none, some ⟨none, none, none⟩⟩ := by
  decide

/-- C4: evaluating the engine at the forced-overwrite input — existing
value 100, acquired comparison value 200 — shows the write stays null, the
mismatch is reported and the row is not modified.  The engine reads no
force-overwrite option at all, so the `FORCE_CL_OVERWRITE = true` the
caller sets cannot change this outcome, while the test suite of the
repository expects a 200 write, no mismatch and a modified row. -/
theorem processRow_force_ignored_c4 :
    (processRow c4Row c4Services c4Options).writeValue = none
  ∧ (processRow c4Row c4Services c4Options).mismatch = some ⟨2, some "123", some 100, 200⟩
  ∧ (processRow c4Row c4Services c4Options).rowModified = false := by
  decide

/-- C5 counterexample: with session memory present but not matching — last
fingerprint A/1/1 against working fingerprint B/2/2 — and a previous row
whose raw fingerprint does match, the engine still consults the fallback
and reports the same card, while the claimed rule (fallback only when
memory is empty) says false. -/
theorem computeIsSameCard_fallback_cx :
    computeIsSameCard ⟨some "B", some "2", some "2"⟩
        (some ⟨some "A", some "1", some "1"⟩) (some "B") (some "2") (some "2") = true
  ∧ specIsSameItem ⟨some "B", some "2", some "2"⟩
        (some ⟨some "A", some "1", some "1"⟩) (some "B") (some "2") (some "2") = false := by
  decide

/-- C5 amended: the engine reports the same card exactly when the working
fingerprint matches the session-memory fingerprint, or — whenever that
memory check fails, because memory is empty or because it does not match —
the previous record has a non-empty name and the working fingerprint
matches the previous record raw fingerprint.  The fallback is thus
consulted on any memory miss, not only on empty memory. -/
theorem computeIsSameCard_characterization_c5 :
    ∀ (active : Fingerprint) (lastPsa : Option Fingerprint) (pn pnum pg : Option String),
      computeIsSameCard active lastPsa pn pnum pg = true ↔
        ((∃ lp, lastPsa = some lp ∧ isMatch active.name lp.name = true ∧
            isMatch active.number lp.number = true ∧ isMatch active.grade lp.grade = true)
         ∨ (truthyStr pn = true ∧ isMatch active.name pn = true ∧
            isMatch active.number pnum = true ∧ isMatch active.grade pg = true)) := by
  intro active lastPsa pn pnum pg
  cases lastPsa with
  | none =>
    simp [computeIsSameCard, Bool.and_eq_true, and_assoc]
  | some lp =>
    simp [computeIsSameCard, Bool.or_eq_true, Bool.and_eq_true, and_assoc]

/-- C6 counterexample: `"A"` and `"a"` differ only in letter case — their
lowercased characters agree — yet the fingerprint comparison rejects them:
it is not case-insensitive. -/
theorem isMatch_case_sensitive_cx :
    isMatch (some "A") (some "a") = false
  ∧ "A".data.map Char.toLower = "a".data.map Char.toLower := by
  decide

/-- C6 amended: the fingerprint component comparison is insensitive to
surrounding whitespace and treats null and undefined as the empty string,
but it is case-sensitive: two values compare equal exactly when their
trimmed string forms (null as empty) are identical. -/
theorem isMatch_trim_null_c6 :
    (∀ a b : Option String, isMatch a b = true ↔ jsTrim (a.getD "") = jsTrim (b.getD ""))
  ∧ (∀ b : Option String, isMatch none b = isMatch (some "") b)
  ∧ isMatch (some "  foo ") (some "foo") = true
  ∧ isMatch (some "") none = true := by
  refine ⟨?_, ?_, by decide, by decide⟩
  · intro a b
    simp [isMatch]
  · intro b
    rfl

/-- C8: session-memory postcondition of every engine call — the returned
fingerprint is refreshed to the working fingerprint unconditionally, and
the returned last scraped value is the raw quote exactly when the CL
acquisition of this row yielded a result, carrying the input value over in
every other case (pure skip, mode exclusion, or failed acquisition). -/
theorem processRow_session_memory_c8 :
    ∀ (rd : RowData) (sv : RowServices) (op : RowOptions),
      (processRow rd sv op).updatedLastPsaDetails
          = some (workingFingerprint rd op.WRITE_MODE sv.psaResult)
    ∧ (processRow rd sv op).updatedLastScrapedValue =
        (match clOutcome rd sv op with
         | some pr => some pr.raw
         | none => op.lastScrapedValue) := by
  intro rd sv op
  cases hcl : clOutcome rd sv op with
  | none => simp [processRow, hcl]
  | some pr =>
    by_cases hv : hasVal rd.currentVal = true
    · simp [processRow, hcl, hv]
    · simp [processRow, hcl, hv]

/-- C9 counterexample: two modified rows (values 100 and 200, rows 2 and
3) reach a chunk-size-2 commit that times out at row 3.  The batch
intended to write both cells B2 and B3, but the recorded verification
entries cover only the triggering row — B2 gets no entry — so the claim
that every field the batch intended to write is recorded is false. -/
theorem saveTimeout_batch_coverage_cx :
    c9Final.timedOutSaves = [(3, [⟨"B3", .num 200⟩])]
  ∧ c9Final.lastCommitIntent = [⟨"B2", .num 100⟩, ⟨"B3", .num 200⟩]
  ∧ (⟨"B2", .num 100⟩ : ExpectedCell) ∈ c9Final.lastCommitIntent
  ∧ ∀ e ∈ c9Final.timedOutSaves, (⟨"B2", .num 100⟩ : ExpectedCell) ∉ e.2 := by
  have hb2 : getColLetter 1 ++ toString 2 = "B2" := by rw [getColLetter_one]; rfl
  have hb3 : getColLetter 1 ++ toString 3 = "B3" := by rw [getColLetter_one]; rfl
  have h1 : buildExpectedCells c9Cols ⟨none, none, none, some 200, none, true⟩ 3
      = [⟨"B3", .num 200⟩] := by
    simp [buildExpectedCells, c9Cols, hb3]
  have h2 : appliedCells c9Cols ⟨none, none, none, some 100, none, true⟩ 2
      = [⟨"B2", .num 100⟩] := by
    simp [appliedCells, c9Cols, hb2]
  have h3 : appliedCells c9Cols ⟨none, none, none, some 200, none, true⟩ 3
      = [⟨"B3", .num 200⟩] := by
    simp [appliedCells, c9Cols, hb3]
  have hstep1 : saveStep 2 c9Commit c9State0 c9Cols c9Result1 2
      = ⟨1, [], 0, [⟨"B2", .num 100⟩], []⟩ := by
    simp [saveStep, c9State0, c9Result1, h2]
  have hfinal : c9Final
      = ⟨0, [(3, [⟨"B3", .num 200⟩])], 1, [], [⟨"B2", .num 100⟩, ⟨"B3", .num 200⟩]⟩ := by
    rw [show c9Final = saveStep 2 c9Commit (saveStep 2 c9Commit c9State0 c9Cols c9Result1 2)
          c9Cols c9Result2 3 from rfl, hstep1]
    simp [saveStep, c9Commit, c9Result2, h1, h3]
  rw [hfinal]
  exact ⟨rfl, rfl, by decide, by decide⟩

/-- C9 amended: a timed-out chunk commit is not retried inline (exactly one
save attempt, where a hard error triggers a second), and it records one
verification entry per field of the row that triggered the commit — not of
every row the batch covered.  After the run those entries are re-read and
compared, numeric expected values under numeric conversion and all others
as trimmed strings, and the verification pass only collects the mismatched
cells into its report, one entry per recorded row, failing nothing. -/
theorem saveTimeout_row_entries_c9 (chunkSize : ℕ) (commit : ℕ → CommitOutcome)
    (st : SaveState) (cols : SheetCols) (result : SaveResult) (rowNumber : ℕ)
    (hm : result.rowModified = true)
    (hsz : chunkSize ≤ st.modifiedSinceSave + 1)
    (ht : commit st.commitAttempts = .timeout) :
    ((saveStep chunkSize commit st cols result rowNumber).timedOutSaves
        = st.timedOutSaves ++
          (if buildExpectedCells cols result rowNumber = [] then []
           else [(rowNumber, buildExpectedCells cols result rowNumber)]))
  ∧ ((saveStep chunkSize commit st cols result rowNumber).commitAttempts
        = st.commitAttempts + 1)
  ∧ (∀ q a, cellMatches (.num q) a = (jsNumber a == some q))
  ∧ (∀ s a, cellMatches (.str s) a = (jsTrim (jsString a) == jsTrim s))
  ∧ (∀ act entries, verifyTimedOutSaves act entries
        = entries.map (fun e => (e.1, e.2.filter (fun c => !cellMatches c.expected (act c.a1)))))
  ∧ (∀ act entries, (verifyTimedOutSaves act entries).length = entries.length) := by
  refine ⟨?_, ?_, fun q a => rfl, fun s a => rfl, fun act entries => rfl,
    fun act entries => by simp [verifyTimedOutSaves]⟩
  · simp [saveStep, hm, if_pos hsz, ht]
  · simp [saveStep, hm, if_pos hsz, ht]

/-- C9 amended, witness: chunk size 1, a single modified value-writing row
at row 2 under a timing-out commit. -/
theorem saveTimeout_row_entries_c9_witness :
    ((saveStep 1 c9Commit c9State0 c9Cols c9Result1 2).timedOutSaves
        = c9State0.timedOutSaves ++
          (if buildExpectedCells c9Cols c9Result1 2 = [] then []
           else [(2, buildExpectedCells c9Cols c9Result1 2)]))
  ∧ ((saveStep 1 c9Commit c9State0 c9Cols c9Result1 2).commitAttempts
        = c9State0.commitAttempts + 1)
  ∧ (∀ q a, cellMatches (.num q) a = (jsNumber a == some q))
  ∧ (∀ s a, cellMatches (.str s) a = (jsTrim (jsString a) == jsTrim s))
  ∧ (∀ act entries, verifyTimedOutSaves act entries
        = entries.map (fun e => (e.1, e.2.filter (fun c => !cellMatches c.expected (act c.a1)))))
  ∧ (∀ act entries, (verifyTimedOutSaves act entries).length = entries.length) :=
  saveTimeout_row_entries_c9 1 c9Commit c9State0 c9Cols c9Result1 2 rfl
    (by norm_num [c9State0]) rfl
